import Mathlib

/-!
Verification development for the `pynboard` repository (a small in-process
HTML "scratch display board").

The Python sources under `src/pynboard/` are shallowly embedded below:

* `html_buffer.py` — the `HtmlBuffer` class and the object-to-HTML
  dispatch (`_obj_to_html`, `_obj_single_to_html`, `_obj_grid_to_html`),
  the numeric display-precision heuristic
  (`_get_default_numeric_col_display_precision`) and the date-only
  datetime column test (`_is_date_only_dt_column`,
  `_date_only_dt_formatter`).
* `__init__.py` — the module-level active-board wiring
  (`get_active_board`, `set_active_board`, `append`, `render`,
  `render_obj`, `reset`, `set_post_render_actions`).
* `utils.py` — `create_default_board` and `action_sequence_html_file`.

Python exceptions are embedded as `Except String`; a raising call site
returns `Except.error msg` and, where the original code mutates state,
the unmodified state is returned alongside (an uncaught Python exception
leaves the object as it was at the point of the raise).  Machine floats
in the statistics code are embedded as exact rationals (`ℚ`), with
`np.floor(np.log10 x)` embedded as `Int.log 10 x` (for `x > 0` this is
the integer `k` with `10^k ≤ x < 10^(k+1)`, i.e. `⌊log10 x⌋`).

External library collaborators (plotly's `pio.to_html`, pandas'
`Styler.to_html`, the `markdown` package) are modelled as opaque total
string functions: no claim depends on their output beyond it being the
collaborator's result for the given input.  `pynboard/core.py`
(class `Board`) and `pynboard/actions.py` are not part of the sources
provided; they are modelled from the spec where needed, as marked.
-/

namespace Pynboard

/-- The keyword-argument bag passed to `append`/`_obj_to_html`.  A field is
`none` when the key is absent from the Python `kwargs` dict; the
`kwargs.get(key, default)` calls of the source are the `get_…` functions
below. -/
structure Kwargs where
  index : Option Bool
  title : Option String
  raw_string : Option Bool
deriving DecidableEq, Repr

/-- `kwargs.get("index", True)` from `_obj_single_to_html`. -/
def Kwargs.get_index (k : Kwargs) : Bool := k.index.getD true

/-- `kwargs.get("title")` from `_obj_single_to_html`. -/
def Kwargs.get_title (k : Kwargs) : Option String := k.title

/-- `kwargs.get("raw_string", False)` from `_obj_single_to_html`. -/
def Kwargs.get_raw_string (k : Kwargs) : Bool := k.raw_string.getD false

/-- An empty `kwargs` dict (no keys passed). -/
def Kwargs.empty : Kwargs := ⟨none, none, none⟩

/-- The runtime objects that can reach `_obj_to_html`.  `figure`, `styler`,
`data_frame` and `series` carry an opaque payload standing for the
external object's content; `seq` stands for both Python `list` and
`tuple` (the source treats the two identically via
`isinstance(obj, (list, tuple))`); `other` is any object of an
unrecognized type, carrying the rendering `str(type(obj))` of its type
(e.g. `<class \x27int\x27>`). -/
inductive Obj where
  | figure (data : String)
  | styler (data : String)
  | data_frame (data : String)
  | series (data : String)
  | str (s : String)
  | seq (elems : List Obj)
  | other (type_str : String)

/-- `str(type(obj))` for each embedded object kind. -/
def type_str_of : Obj → String
  | .figure _ => "<class \x27plotly.graph_objs._figure.Figure\x27>"
  | .styler _ => "<class \x27pandas.io.formats.style.Styler\x27>"
  | .data_frame _ => "<class \x27pandas.core.frame.DataFrame\x27>"
  | .series _ => "<class \x27pandas.core.series.Series\x27>"
  | .str _ => "<class \x27str\x27>"
  | .seq _ => "<class \x27list\x27>"
  | .other t => t

/-- `isinstance(obj, (list, tuple))` — the grid test of `_obj_to_html` and
the per-element test of `_obj_grid_to_html`. -/
def is_seq : Obj → Bool
  | .seq _ => true
  | _ => false

/-- Modelled external collaborator: `plotly.io.to_html(obj, full_html=False)`. -/
def plotly_to_html (data : String) : String := "<div class=plotly>" ++ data ++ "</div>"

/-- Modelled external collaborator: `pandas.io.formats.style.Styler.to_html()`. -/
def styler_to_html (data : String) : String := "<table class=styler>" ++ data ++ "</table>"

/-- Modelled external collaborator: `markdown.markdown(obj)`. -/
def markdown_markdown (s : String) : String := "<p>" ++ s ++ "</p>"

/-- Modelled external collaborator: `Series.to_frame()` (payload-level). -/
def series_to_frame (data : String) : String := data

/-- Modelled external collaborator:
`_generate_frame_style(df, index=…, title=…).to_html()`.  The in-repo
styling pipeline `_generate_frame_style` operates on pandas objects; its
column-level numeric-precision and datetime-formatting sub-algorithms are
embedded separately below (`display_precision`, `format_dt_column`). -/
def frame_style_to_html (data : String) (index : Bool) (title : Option String) : String :=
  "<table class=frame index=" ++ (if index then "1" else "0")
    ++ " title=" ++ (title.getD "") ++ ">" ++ data ++ "</table>"

/-- `_obj_single_to_html(obj, **kwargs)` from `html_buffer.py`:
type-dispatch of one displayable object to an HTML string.  A Python
`list`/`tuple` reaching this function (a nested grid element) and any
unrecognized object fall into the final `else` branch, which raises
`TypeError("unexpected object type {}".format(type(obj)))`. -/
def obj_single_to_html (o : Obj) (k : Kwargs) : Except String String :=
  match o with
  | .figure d => .ok (plotly_to_html d)
  | .styler d => .ok (styler_to_html d)
  | .data_frame d => .ok (frame_style_to_html d k.get_index k.get_title)
  | .series d => .ok (frame_style_to_html (series_to_frame d) k.get_index k.get_title)
  | .str s => if k.get_raw_string then .ok s else .ok (markdown_markdown s)
  | .seq es => .error ("unexpected object type " ++ type_str_of (.seq es))
  | .other t => .error ("unexpected object type " ++ t)

/-- The object kinds on which `_obj_single_to_html` raises. -/
def is_unsupported : Obj → Bool
  | .seq _ => true
  | .other _ => true
  | _ => false

/-- Python iteration over a grid row (`for obj in obj_row`).  A
`list`/`tuple` yields its elements; a string yields its characters
(each a one-character string); a non-iterable object raises
`TypeError("\x27…\x27 object is not iterable")`.  (pandas frames/series and
plotly figures are modelled as non-iterable here; no claim exercises a
frame in row position.) -/
def iter_obj : Obj → Except String (List Obj)
  | .seq es => .ok es
  | .str s => .ok (s.data.map fun c => Obj.str (String.singleton c))
  | o => .error ("\x27" ++ type_str_of o ++ "\x27 object is not iterable")

/-- The inner loop of `_obj_grid_to_html`: render each element of a row
and wrap it in `<td>…</td>`, stopping at the first raising element. -/
def cells_html : List Obj → Kwargs → Except String (List String)
  | [], _ => .ok []
  | o :: os, k =>
    match obj_single_to_html o k with
    | .error e => .error e
    | .ok h =>
      match cells_html os k with
      | .error e => .error e
      | .ok hs => .ok (("<td>" ++ h ++ "</td>") :: hs)

/-- The per-element HTML of a row without the `<td>` wrappers (used to
state what the cells hold). -/
def single_htmls : List Obj → Kwargs → Except String (List String)
  | [], _ => .ok []
  | o :: os, k =>
    match obj_single_to_html o k with
    | .error e => .error e
    | .ok h =>
      match single_htmls os k with
      | .error e => .error e
      | .ok hs => .ok (h :: hs)

/-- One iteration of the outer loop of `_obj_grid_to_html`: the pieces
`"<tr>"`, the cells, `"</tr>"` contributed by one row. -/
def row_pieces (r : Obj) (k : Kwargs) : Except String (List String) :=
  match iter_obj r with
  | .error e => .error e
  | .ok es =>
    match cells_html es k with
    | .error e => .error e
    | .ok cells => .ok ("<tr>" :: cells ++ ["</tr>"])

/-- The outer loop of `_obj_grid_to_html` over all rows. -/
def rows_pieces : List Obj → Kwargs → Except String (List String)
  | [], _ => .ok []
  | r :: rs, k =>
    match row_pieces r k with
    | .error e => .error e
    | .ok ps =>
      match rows_pieces rs k with
      | .error e => .error e
      | .ok qs => .ok (ps ++ qs)

/-- `"sep".join(pieces)` — Python `str.join`. -/
def join_pieces (sep : String) : List String → String
  | [] => ""
  | [x] => x
  | x :: xs => x ++ sep ++ join_pieces sep xs

/-- `_obj_grid_to_html(objs, **kwargs)` from `html_buffer.py`: a
non-empty sequence whose first element is not a `list`/`tuple` is wrapped
as a single row (`objs = [objs]`); the pieces `"<table>"`, per-row
`"<tr>"`/cells/`"</tr>"`, `"</table>"` are joined with `"\n"`. -/
def obj_grid_to_html (objs : List Obj) (k : Kwargs) : Except String String :=
  let rows : List Obj :=
    match objs with
    | [] => []
    | o :: _ => if is_seq o then objs else [Obj.seq objs]
  match rows_pieces rows k with
  | .error e => .error e
  | .ok ps => .ok (join_pieces "\n" ("<table>" :: ps ++ ["</table>"]))

/-- `_obj_to_html(obj, **kwargs)` from `html_buffer.py`. -/
def obj_to_html (o : Obj) (k : Kwargs) : Except String String :=
  match o with
  | .seq es => obj_grid_to_html es k
  | o => obj_single_to_html o k

/-- The fixed `_TEXT_CSS_STYLE` document stylesheet from `html_buffer.py`
(transcribed verbatim; braces written with escape codes). -/
def TEXT_CSS_STYLE : String := "\n<style>\n    body \x7b\n        font-family: -apple-system, BlinkMacSystemFont, \"Segoe UI\", Helvetica, Arial, sans-serif, \"Apple Color Emoji\", \"Segoe UI Emoji\";\n        line-height: 1.5;\n        color: #24292e;\n        background-color: #ffffff;\n        padding: 20px;\n    \x7d\n\n    h1, h2, h3, h4, h5, h6 \x7b\n        font-weight: 600;\n        margin-top: 24px;\n        margin-bottom: 16px;\n        border-bottom: 1px solid #eaecef;\n        padding-bottom: 0.3em;\n    \x7d\n\n    h1 \x7b\n        font-size: 2em;\n    \x7d\n\n    h2 \x7b\n        font-size: 1.5em;\n    \x7d\n\n    h3 \x7b\n        font-size: 1.25em;\n    \x7d\n\n    h4 \x7b\n        font-size: 1em;\n    \x7d\n\n    h5 \x7b\n        font-size: 0.875em;\n    \x7d\n\n    h6 \x7b\n        font-size: 0.85em;\n        color: #6a737d;\n    \x7d\n\n    p \x7b\n        margin-top: 0;\n        margin-bottom: 16px;\n    \x7d\n\n    a \x7b\n        color: #0366d6;\n        text-decoration: none;\n    \x7d\n\n    a:hover \x7b\n        text-decoration: underline;\n    \x7d\n\n    blockquote \x7b\n        padding: 0 1em;\n        color: #6a737d;\n        border-left: 0.25em solid #dfe2e5;\n        margin-top: 0;\n        margin-bottom: 16px;\n    \x7d\n\n    ul, ol \x7b\n        padding-left: 2em;\n        margin-top: 0;\n        margin-bottom: 16px;\n    \x7d\n\n    ul \x7b\n        list-style-type: disc;\n    \x7d\n\n    ol \x7b\n        list-style-type: decimal;\n    \x7d\n\n    code \x7b\n        background-color: rgba(27,31,35,0.05);\n        padding: 0.2em 0.4em;\n        margin: 0;\n        font-size: 85%;\n        border-radius: 3px;\n        font-family: \"SFMono-Regular\", Consolas, \"Liberation Mono\", Menlo, Courier, monospace;\n    \x7d\n\n    pre \x7b\n        background-color: #f6f8fa;\n        padding: 16px;\n        overflow: auto;\n        line-height: 1.45;\n        border-radius: 3px;\n        margin-top: 0;\n        margin-bottom: 16px;\n        border: 1px solid #e1e4e8;\n    \x7d\n\n    pre code \x7b\n        background: none;\n        padding: 0;\n        font-size: 100%;\n        border: 0;\n    \x7d\n\n    table \x7b\n        /* width: 100%; */\n        overflow: auto;\n        margin-top: 0;\n        margin-bottom: 16px;\n        border-collapse: collapse;\n    \x7d\n\n    table th \x7b\n        font-weight: 600;\n        padding: 6px 13px;\n        border: 1px solid #dfe2e5;\n        vertical-align: top;\n    \x7d\n\n    table td \x7b\n        padding: 6px 13px;\n        border: 1px solid #dfe2e5;\n        vertical-align: top;\n    \x7d\n\n    table tr \x7b\n        background-color: #ffffff;\n        border-top: 1px solid #c6cbd1;\n    \x7d\n\n    /*\n    table tr:nth-child(2n) \x7b\n        background-color: #f6f8fa;\n    \x7d\n    */\n\n    img \x7b\n        max-width: 100%;\n        height: auto;\n    \x7d\n</style>\n"

/-- The `HtmlBuffer` class: an ordered fragment list `_buffer_data` and
the last rendered document `_rendered` (`None` until `render`). -/
structure HtmlBuffer where
  buffer_data : List String
  rendered : Option String
deriving DecidableEq, Repr

/-- `HtmlBuffer.__init__`: `_buffer_data = []`, class default
`_rendered = None`. -/
def HtmlBuffer.init : HtmlBuffer := ⟨[], none⟩

/-- `HtmlBuffer.append(obj, **kwargs)`: convert first, then push the
fragment.  The pair returns the Python control flow: on a raising
conversion the buffer is returned unchanged (the `self._buffer_data.append`
line is never reached). -/
def HtmlBuffer.append (st : HtmlBuffer) (o : Obj) (k : Kwargs) :
    Except String Unit × HtmlBuffer :=
  match obj_to_html o k with
  | .error e => (.error e, st)
  | .ok html => (.ok (), { st with buffer_data := st.buffer_data ++ [html] })

/-- `HtmlBuffer.render()`: join the fragments with `"\n<br>\n"`, prepend
the stylesheet (`f"{style}\n\n\n{base}"`), store as `_rendered`. -/
def HtmlBuffer.render (st : HtmlBuffer) : HtmlBuffer :=
  { st with rendered := some (TEXT_CSS_STYLE ++ "\n\n\n" ++ join_pieces "\n<br>\n" st.buffer_data) }

/-- `HtmlBuffer.reset()`. -/
def HtmlBuffer.reset (_st : HtmlBuffer) : HtmlBuffer := ⟨[], none⟩

/-- Modelled from the spec: the post-render callbacks provided by
`pynboard/actions.py`, which is not among the provided sources.  The
spec names three: persist-rendered-output-to-file (with an optional
path), open-file-in-default-browser, and clear-buffer; `utils.py` refers
to them as `actions.dump_rendered_to_html_file`,
`actions.open_saved_buffer_in_browser` and `actions.reset_buffer`. -/
inductive PostRenderAction where
  | dump_rendered_to_html_file (path : Option String)
  | open_saved_buffer_in_browser
  | reset_buffer
deriving DecidableEq, Repr

/-- Modelled from the spec: the `Board` class of `pynboard/core.py`
(not among the provided sources) — "holds exactly one buffer … and an
ordered sequence of callback functions". -/
structure Board where
  buffer : HtmlBuffer
  post_render_actions : List PostRenderAction
deriving DecidableEq, Repr

/-- Modelled from the spec: `Board.append` is "forwarded to the buffer". -/
def Board.append (b : Board) (o : Obj) (k : Kwargs) : Except String Unit × Board :=
  let rb := b.buffer.append o k
  (rb.1, { b with buffer := rb.2 })

/-- Modelled from the spec: `Board.reset` is "forwarded to the buffer". -/
def Board.reset (b : Board) : Board := { b with buffer := b.buffer.reset }

/-- Modelled from the spec: `Board.set_post_render_actions(actions)` —
"wholesale replace the callback sequence". -/
def Board.set_post_render_actions (b : Board) (acts : List PostRenderAction) : Board :=
  { b with post_render_actions := acts }

/-- The world touched by the post-render callbacks: the saved HTML file
content and whether a browser was opened on it. -/
structure World where
  saved_html : Option String
  browser_opened : Bool
deriving DecidableEq, Repr

/-- Modelled from the spec: the effect of one post-render callback —
persist the board's current rendered output to the file, open the file
in a browser, or reset the board's buffer. -/
def run_post_render_action : PostRenderAction → Board → World → Board × World
  | .dump_rendered_to_html_file _path, b, w => (b, { w with saved_html := b.buffer.rendered })
  | .open_saved_buffer_in_browser, b, w => (b, { w with browser_opened := true })
  | .reset_buffer, b, w => (b.reset, w)

/-- Modelled from the spec: `Board.render()` "calls buffer.render(), then
invokes each registered post-render callback, in registration order". -/
def Board.render (b : Board) (w : World) : Board × World :=
  let b1 : Board := { b with buffer := b.buffer.render }
  b.post_render_actions.foldl (fun bw a => run_post_render_action a bw.1 bw.2) (b1, w)

/-- `action_sequence_html_file(file_path=None, open_file=False,
reset_buffer=True)` from `utils.py` (all arguments explicit here; the
source defaults are `none`, `false`, `true`). -/
def action_sequence_html_file (file_path : Option String) (open_file : Bool)
    (reset_buffer : Bool) : List PostRenderAction :=
  let out := [PostRenderAction.dump_rendered_to_html_file file_path]
  let out := if open_file then out ++ [PostRenderAction.open_saved_buffer_in_browser] else out
  if reset_buffer then out ++ [PostRenderAction.reset_buffer] else out

/-- `create_default_board()` from `utils.py`: a fresh `HtmlBuffer`, a
`Board` over it, and the action sequence
`action_sequence_html_file(file_path=None, open_file=True)` (with
`reset_buffer` left at its default `True`). -/
def create_default_board : Board :=
  let buffer := HtmlBuffer.init
  let board : Board := { buffer := buffer, post_render_actions := [] }
  let acts := action_sequence_html_file none true true
  board.set_post_render_actions acts

/-- The module-level mutable state of `pynboard/__init__.py`: the
process-wide `_active_board` reference. -/
structure ModuleState where
  active_board : Option Board
deriving DecidableEq, Repr

/-- The initial module state: `_active_board: Optional[Board] = None`. -/
def init_module_state : ModuleState := ⟨none⟩

/-- `get_active_board()` from `__init__.py`: lazily construct and store
the default board on first access; afterwards return the stored board. -/
def get_active_board (s : ModuleState) : Board × ModuleState :=
  match s.active_board with
  | none => (create_default_board, ⟨some create_default_board⟩)
  | some b => (b, s)

/-- `set_active_board(board)` from `__init__.py`. -/
def set_active_board (_s : ModuleState) (b : Board) : ModuleState := ⟨some b⟩

/-- Module-level `set_post_render_actions(actions)` from `__init__.py`. -/
def pn_set_post_render_actions (s : ModuleState) (acts : List PostRenderAction) : ModuleState :=
  let bs := get_active_board s
  ⟨some (bs.1.set_post_render_actions acts)⟩

/-- Module-level `append(obj, **kwargs)` from `__init__.py`.  Note that
`get_active_board` stores the newly created board before `board.append`
runs, so a raising append still leaves a (default) board installed. -/
def pn_append (s : ModuleState) (o : Obj) (k : Kwargs) : Except String Unit × ModuleState :=
  let bs := get_active_board s
  let rb := bs.1.append o k
  (rb.1, ⟨some rb.2⟩)

/-- Module-level `render()` from `__init__.py`. -/
def pn_render (s : ModuleState) (w : World) : ModuleState × World :=
  let bs := get_active_board s
  let bw := bs.1.render w
  (⟨some bw.1⟩, bw.2)

/-- Module-level `render_obj(obj, **kwargs)` from `__init__.py`:
`board.append` then `board.render`; a raising append skips the render. -/
def pn_render_obj (s : ModuleState) (o : Obj) (k : Kwargs) (w : World) :
    Except String Unit × ModuleState × World :=
  let bs := get_active_board s
  let rb := bs.1.append o k
  match rb.1 with
  | .error e => (.error e, ⟨some rb.2⟩, w)
  | .ok _ =>
    let bw := rb.2.render w
    (.ok (), ⟨some bw.1⟩, bw.2)

/-- Module-level `reset()` from `__init__.py`. -/
def pn_reset (s : ModuleState) : ModuleState :=
  let bs := get_active_board s
  ⟨some bs.1.reset⟩

/-- pandas `Series.median()` over exact rationals: sort, take the middle
element (odd length) or the mean of the two middle elements (even
length); `NaN` (here: `none`) for an empty series. -/
def pd_median (xs : List ℚ) : Option ℚ :=
  let s := List.insertionSort (fun a b => a ≤ b) xs
  let n := s.length
  if n = 0 then none
  else if n % 2 = 1 then s[n / 2]?
  else
    match s[n / 2 - 1]?, s[n / 2]? with
    | some a, some b => some ((a + b) / 2)
    | _, _ => none

/-- pandas `Series.mean()`: `NaN` (`none`) for an empty series. -/
def pd_mean (xs : List ℚ) : Option ℚ :=
  if xs.length = 0 then none else some (xs.sum / (xs.length : ℚ))

/-- pandas sample variance (`Series.std() ** 2`, `ddof=1`): `NaN`
(`none`) for fewer than two values. -/
def pd_var (xs : List ℚ) : Option ℚ :=
  match pd_mean xs with
  | none => none
  | some m =>
    if xs.length ≤ 1 then none
    else some ((xs.map (fun x => (x - m) ^ 2)).sum / ((xs.length : ℚ) - 1))

/-- `abs(data - data.median()).median()` from
`_get_default_numeric_col_display_precision`. -/
def pd_mad (xs : List ℚ) : Option ℚ :=
  match pd_median xs with
  | none => none
  | some m => pd_median (xs.map (fun x => |x - m|))

/-- `np.floor(np.log10 q)` over exact rationals: for `q > 0` this is
`Int.log 10 q`, the unique `k` with `10^k ≤ q < 10^(k+1)`.  `none`
covers `np.log10(0) = -inf` and `np.log10(negative) = NaN`, both of
which `.replace([np.inf, -np.inf], np.nan)` turns into `NaN` before the
back-fill. -/
def floor_log10 (q : ℚ) : Option ℤ :=
  if 0 < q then some (Int.log 10 q) else none

/-- `np.floor(np.log10 (sqrt q))` for the `std` column, computed on the
variance `q = std^2`: `⌊(log10 q) / 2⌋ = (Int.log 10 q).fdiv 2`, since
`10^(2k) ≤ q < 10^(2k+2)` iff `10^k ≤ sqrt q < 10^(k+1)`. -/
def floor_log10_sqrt (q : ℚ) : Option ℤ :=
  if 0 < q then some (Int.fdiv (Int.log 10 q) 2) else none

/-- One precision candidate, `np.floor(np.log10 v) - 1`. -/
def prec_candidate (v : Option ℚ) : Option ℤ :=
  v.bind (fun q => (floor_log10 q).map (fun l => l - 1))

/-- The `std` precision candidate, stated on the variance. -/
def prec_candidate_std (v : Option ℚ) : Option ℤ :=
  v.bind (fun q => (floor_log10_sqrt q).map (fun l => l - 1))

/-- The back-fill/fill step of
`_get_default_numeric_col_display_precision`:
`pd.concat([prec_mad, prec_std, prec_mean], axis=1)
 .replace([np.inf, -np.inf], np.nan).bfill(axis=1).fillna(0)` followed
by `.iloc[:, 0]` — the first defined candidate left-to-right, else 0. -/
def combined_prec (xs : List ℚ) : ℤ :=
  (((prec_candidate (pd_mad xs)).orElse
      (fun _ => (prec_candidate_std (pd_var xs)).orElse
        (fun _ => prec_candidate (pd_mean xs)))).getD 0)

/-- The per-column display precision:
`np.clip(prec.iloc[:, 0] * -1, a_min=0, a_max=4).astype(int)`. -/
def display_precision (xs : List ℚ) : ℤ :=
  min (max (-(combined_prec xs)) 0) 4

/-- `_get_default_numeric_col_display_precision` applied to a whole
frame: one precision per numeric column (zero columns give the empty
list). -/
def frame_display_precisions (cols : List (List ℚ)) : List ℤ :=
  cols.map display_precision

/-- Nanoseconds per day; pandas datetimes are `datetime64[ns]` counts
since the epoch, embedded as `ℤ`. -/
def ns_per_day : ℤ := 86400000000000

/-- `col - col.dt.floor("D")` for one timestamp: `floor("D")` floors
toward `-∞`, so for the positive modulus the remainder is the Euclidean
one. -/
def time_of_day_ns (t : ℤ) : ℤ := Int.emod t ns_per_day

/-- `deltas.dt.total_seconds()` for one delta (exact rationals). -/
def total_seconds_q (d : ℤ) : ℚ := (d : ℚ) / 1000000000

/-- `np.allclose(secs, 0)` with the numpy defaults `rtol=1e-5`,
`atol=1e-8`: against the constant 0 the `rtol` term vanishes, leaving
`|s| ≤ 1e-8` for every element (vacuously true for an empty list). -/
def np_allclose_zero (secs : List ℚ) : Bool :=
  secs.all (fun s => decide (|s| ≤ 1 / 100000000))

/-- `_is_date_only_dt_column(col)` from `html_buffer.py`. -/
def is_date_only_dt_column (col : List ℤ) : Bool :=
  np_allclose_zero (col.map (fun t => total_seconds_q (time_of_day_ns t)))

/-- Gregorian calendar date of a day count since 1970-01-01 (the civil
calendar conversion underlying `strftime`); returns (year, month, day). -/
def civil_from_days (z0 : ℤ) : ℤ × ℕ × ℕ :=
  let z : ℤ := z0 + 719468
  let era : ℤ := Int.fdiv z 146097
  let doe : ℕ := (z - era * 146097).toNat
  let yoe : ℕ := (doe - doe / 1460 + doe / 36524 - doe / 146096) / 365
  let y : ℤ := (yoe : ℤ) + era * 400
  let doy : ℕ := doe - (365 * yoe + yoe / 4 - yoe / 100)
  let mp : ℕ := (5 * doy + 2) / 153
  let d : ℕ := doy - (153 * mp + 2) / 5 + 1
  let m : ℕ := if mp < 10 then mp + 3 else mp - 9
  (if m ≤ 2 then y + 1 else y, m, d)

/-- Two-digit zero-padded decimal. -/
def pad2 (n : ℕ) : String := if n < 10 then "0" ++ toString n else toString n

/-- Four-digit zero-padded decimal (`strftime("%Y")`). -/
def pad4 (n : ℕ) : String :=
  if n < 10 then "000" ++ toString n
  else if n < 100 then "00" ++ toString n
  else if n < 1000 then "0" ++ toString n
  else toString n

/-- `strftime("%Y")` for a (possibly negative) year. -/
def year_str (y : ℤ) : String :=
  if y < 0 then "-" ++ pad4 y.natAbs else pad4 y.toNat

/-- The `YYYY-MM-DD` date string of a day count since the epoch. -/
def date_str (days : ℤ) : String :=
  let c := civil_from_days days
  year_str c.1 ++ "-" ++ pad2 c.2.1 ++ "-" ++ pad2 c.2.2

/-- `_date_only_dt_formatter(x)` from `html_buffer.py`:
`x.strftime("%Y-%m-%d")`. -/
def date_only_dt_formatter (t : ℤ) : String :=
  date_str (Int.fdiv t ns_per_day)

/-- Modelled external collaborator: pandas' default datetime rendering,
which includes the time of day (`YYYY-MM-DD HH:MM:SS`; sub-second parts
of the embedded timestamps are not shown, as no claim exercises them). -/
def default_dt_format (t : ℤ) : String :=
  let secs : ℕ := (time_of_day_ns t).toNat / 1000000000
  date_str (Int.fdiv t ns_per_day) ++ " "
    ++ pad2 (secs / 3600) ++ ":" ++ pad2 (secs % 3600 / 60) ++ ":" ++ pad2 (secs % 60)

/-- The datetime branch of `_generate_frame_style` restricted to one
datetime column (or index level): columns passing
`_is_date_only_dt_column` are formatted with `_date_only_dt_formatter`,
the rest keep pandas' default formatting. -/
def format_dt_column (col : List ℤ) : List String :=
  if is_date_only_dt_column col then col.map date_only_dt_formatter
  else col.map default_dt_format

lemma obj_single_to_html_unsupported (o : Obj) (k : Kwargs) (h : is_unsupported o = true) :
    obj_single_to_html o k = .error ("unexpected object type " ++ type_str_of o) := by
  cases o <;> simp_all [is_unsupported, obj_single_to_html, type_str_of]

lemma obj_single_to_html_supported (o : Obj) (k : Kwargs) (h : is_unsupported o = false) :
    ∃ s, obj_single_to_html o k = .ok s := by
  cases o <;> simp_all [is_unsupported, obj_single_to_html]
  split <;> simp

lemma cells_html_error (k : Kwargs) :
    ∀ es : List Obj, (∃ e ∈ es, is_unsupported e = true) →
      ∃ e ∈ es, is_unsupported e = true ∧
        cells_html es k = .error ("unexpected object type " ++ type_str_of e) := by
  intro es
  induction es with
  | nil => rintro ⟨e, he, _⟩; cases he
  | cons o os ih =>
    intro hex
    by_cases ho : is_unsupported o = true
    · exact ⟨o, List.mem_cons_self o os, ho, by
        simp [cells_html, obj_single_to_html_unsupported o k ho]⟩
    · have ho' : is_unsupported o = false := by simpa using ho
      obtain ⟨s, hs⟩ := obj_single_to_html_supported o k ho'
      obtain ⟨e, he, heu⟩ := hex
      have he' : e ∈ os := by
        rcases List.mem_cons.mp he with rfl | h
        · exact absurd heu ho
        · exact h
      obtain ⟨e', he', heu', herr⟩ := ih ⟨e, he', heu⟩
      exact ⟨e', List.mem_cons_of_mem o he', heu', by simp [cells_html, hs, herr]⟩

lemma cells_html_ok (k : Kwargs) :
    ∀ es : List Obj, (∀ e ∈ es, is_unsupported e = false) →
      ∃ cs, cells_html es k = .ok cs := by
  intro es
  induction es with
  | nil => exact fun _ => ⟨[], rfl⟩
  | cons o os ih =>
    intro hall
    obtain ⟨s, hs⟩ := obj_single_to_html_supported o k (hall o (List.mem_cons_self o os))
    obtain ⟨cs, hcs⟩ := ih (fun e he => hall e (List.mem_cons_of_mem o he))
    exact ⟨("<td>" ++ s ++ "</td>") :: cs, by simp [cells_html, hs, hcs]⟩

lemma rows_pieces_error (k : Kwargs) :
    ∀ rows : List (List Obj), (∃ r ∈ rows, ∃ e ∈ r, is_unsupported e = true) →
      ∃ e, is_unsupported e = true ∧ (∃ r ∈ rows, e ∈ r) ∧
        rows_pieces (rows.map Obj.seq) k =
          .error ("unexpected object type " ++ type_str_of e) := by
  intro rows
  induction rows with
  | nil => rintro ⟨r, hr, _⟩; cases hr
  | cons r rs ih =>
    intro hex
    by_cases hr : ∃ e ∈ r, is_unsupported e = true
    · obtain ⟨e, he, heu, herr⟩ := cells_html_error k r hr
      refine ⟨e, heu, ⟨r, List.mem_cons_self r rs, he⟩, ?_⟩
      simp [rows_pieces, row_pieces, iter_obj, herr]
    · have hall : ∀ e ∈ r, is_unsupported e = false := by
        intro e he
        by_contra hne
        exact hr ⟨e, he, by simpa using hne⟩
      obtain ⟨cs, hcs⟩ := cells_html_ok k r hall
      obtain ⟨e, heu, ⟨r', hr', he'⟩, herr⟩ := ih (by
        obtain ⟨r0, hr0, he0⟩ := hex
        rcases List.mem_cons.mp hr0 with rfl | h
        · exact absurd he0 hr
        · exact ⟨r0, h, he0⟩)
      refine ⟨e, heu, ⟨r', List.mem_cons_of_mem r hr', he'⟩, ?_⟩
      simp [rows_pieces, row_pieces, iter_obj, hcs, herr]

lemma cells_html_of_single_htmls (k : Kwargs) :
    ∀ (es : List Obj) (hs : List String), single_htmls es k = .ok hs →
      cells_html es k = .ok (hs.map (fun h => "<td>" ++ h ++ "</td>")) := by
  intro es
  induction es with
  | nil =>
    intro hs h
    simp [single_htmls] at h
    subst h
    rfl
  | cons o os ih =>
    intro hs h
    simp only [single_htmls] at h
    cases hh : obj_single_to_html o k with
    | error e => simp [hh] at h
    | ok s =>
      simp only [hh] at h
      cases ht : single_htmls os k with
      | error e => simp [ht] at h
      | ok ss =>
        simp only [ht] at h
        cases h
        simp [cells_html, hh, ih ss ht]

/-- C3: `render()` stores as the rendered output the fixed CSS stylesheet
block followed (after the `"\n\n\n"` of the f-string) by all appended
fragments joined, in insertion order, with the `"\n<br>\n"` separator;
a single fragment gives stylesheet plus exactly that fragment, and an
empty buffer gives the stylesheet header alone with no content. -/
theorem render_output_spec (st : HtmlBuffer) :
    st.render.rendered =
        some (TEXT_CSS_STYLE ++ "\n\n\n" ++ join_pieces "\n<br>\n" st.buffer_data)
    ∧ (st.buffer_data = [] → st.render.rendered = some (TEXT_CSS_STYLE ++ "\n\n\n"))
    ∧ (∀ f, st.buffer_data = [f] →
        st.render.rendered = some (TEXT_CSS_STYLE ++ "\n\n\n" ++ f)) := by
  refine ⟨rfl, ?_, ?_⟩
  · intro h
    simp [HtmlBuffer.render, h, join_pieces]
  · intro f h
    simp [HtmlBuffer.render, h, join_pieces]

/-- Witness for C3 at an empty and a one-fragment buffer. -/
theorem render_output_spec_witness :
    (HtmlBuffer.render ⟨[], none⟩).rendered = some (TEXT_CSS_STYLE ++ "\n\n\n")
    ∧ (HtmlBuffer.render ⟨["<p>hi</p>"], none⟩).rendered =
        some (TEXT_CSS_STYLE ++ "\n\n\n" ++ "<p>hi</p>") :=
  ⟨(render_output_spec ⟨[], none⟩).2.1 rfl,
   (render_output_spec ⟨["<p>hi</p>"], none⟩).2.2 "<p>hi</p>" rfl⟩

/-- C7: `render()` is idempotent — a second `render()` on the unchanged
fragment sequence stores the identical output. -/
theorem render_idempotent (st : HtmlBuffer) :
    st.render.render.rendered = st.render.rendered := rfl

/-- C8: `reset()` empties the fragment sequence and discards the stored
rendered output; the `rendered` accessor is `none` on a fresh buffer and
stays `none` across `append` until a `render` happens. -/
theorem reset_and_rendered_accessor (st : HtmlBuffer) :
    st.reset.buffer_data = [] ∧ st.reset.rendered = none
    ∧ HtmlBuffer.init.rendered = none
    ∧ (∀ o k, st.rendered = none → ((st.append o k).2).rendered = none) := by
  refine ⟨rfl, rfl, rfl, ?_⟩
  intro o k h
  unfold HtmlBuffer.append
  cases obj_to_html o k <;> simpa using h

/-- Witness for C8: a fresh buffer keeps a `none` rendered value across
an `append`. -/
theorem reset_and_rendered_accessor_witness :
    ((HtmlBuffer.init.append (Obj.str "hi") Kwargs.empty).2).rendered = none :=
  (reset_and_rendered_accessor HtmlBuffer.init).2.2.2 (Obj.str "hi") Kwargs.empty rfl

/-- C9 (implicit frame property): `render()` leaves the fragment
sequence unchanged; `append` leaves the previously stored rendered
output unchanged, and on success appends exactly the converted fragment;
a raising `append` leaves the whole buffer untouched. -/
theorem append_render_frame (st : HtmlBuffer) (o : Obj) (k : Kwargs) :
    st.render.buffer_data = st.buffer_data
    ∧ ((st.append o k).2).rendered = st.rendered
    ∧ (∀ h, obj_to_html o k = .ok h →
        ((st.append o k).2).buffer_data = st.buffer_data ++ [h])
    ∧ (∀ e, obj_to_html o k = .error e → (st.append o k).2 = st) := by
  refine ⟨rfl, ?_, ?_, ?_⟩
  · unfold HtmlBuffer.append
    cases obj_to_html o k <;> rfl
  · intro h hh
    simp [HtmlBuffer.append, hh]
  · intro e he
    simp [HtmlBuffer.append, he]

/-- Witness for C9: appending a markdown string to a buffer with a stale
rendered value appends one fragment and keeps the stale value. -/
theorem append_render_frame_witness :
    ((HtmlBuffer.append ⟨["old"], some "stale"⟩ (Obj.str "hi") Kwargs.empty).2).rendered
        = some "stale"
    ∧ ((HtmlBuffer.append ⟨["old"], some "stale"⟩ (Obj.str "hi") Kwargs.empty).2).buffer_data
        = ["old"] ++ [markdown_markdown "hi"] :=
  ⟨(append_render_frame ⟨["old"], some "stale"⟩ (Obj.str "hi") Kwargs.empty).2.1,
   (append_render_frame ⟨["old"], some "stale"⟩ (Obj.str "hi") Kwargs.empty).2.2.1
     (markdown_markdown "hi") rfl⟩

/-- C10: appending an empty list (or tuple — both are embedded as
`Obj.seq`) does not raise and appends the zero-row table fragment
`"<table>\n</table>"`. -/
theorem append_empty_grid (st : HtmlBuffer) (k : Kwargs) :
    st.append (Obj.seq []) k =
      (.ok (), { st with buffer_data := st.buffer_data ++ ["<table>\n</table>"] }) := rfl

/-- C1: appending an object of an unrecognized type raises the
unsupported-type `TypeError` naming the offending runtime type, the
error propagates (the `Except.error` result), and the buffer's fragment
sequence is unchanged (the returned state is the original one).  The
same holds for a grid — flat or nested — containing such an element;
there the message names the (first) grid element on which the dispatch
raises. -/
theorem append_unsupported_type (st : HtmlBuffer) (k : Kwargs) (tn : String) :
    st.append (Obj.other tn) k = (.error ("unexpected object type " ++ tn), st)
    ∧ (∀ objs : List Obj, Obj.other tn ∈ objs →
        (∀ o, objs.head? = some o → is_seq o = false) →
        ∃ e ∈ objs, is_unsupported e = true ∧
          st.append (Obj.seq objs) k =
            (.error ("unexpected object type " ++ type_str_of e), st))
    ∧ (∀ rows : List (List Obj), (∃ r ∈ rows, Obj.other tn ∈ r) →
        ∃ e, is_unsupported e = true ∧ (∃ r ∈ rows, e ∈ r) ∧
          st.append (Obj.seq (rows.map Obj.seq)) k =
            (.error ("unexpected object type " ++ type_str_of e), st)) := by
  refine ⟨rfl, ?_, ?_⟩
  · intro objs hmem hhead
    obtain ⟨e, he, heu, herr⟩ := cells_html_error k objs ⟨Obj.other tn, hmem, rfl⟩
    refine ⟨e, he, heu, ?_⟩
    cases objs with
    | nil => cases hmem
    | cons o0 rest =>
      have h0 : is_seq o0 = false := hhead o0 rfl
      simp [HtmlBuffer.append, obj_to_html, obj_grid_to_html, h0, rows_pieces,
        row_pieces, iter_obj, herr]
  · intro rows hex
    obtain ⟨e, heu, ⟨r, hr, he⟩, herr⟩ :=
      rows_pieces_error k rows (by obtain ⟨r, hr, he⟩ := hex; exact ⟨r, hr, Obj.other tn, he, rfl⟩)
    refine ⟨e, heu, ⟨r, hr, he⟩, ?_⟩
    cases rows with
    | nil => cases hr
    | cons r0 rest =>
      simp [HtmlBuffer.append, obj_to_html, obj_grid_to_html, is_seq] at herr ⊢
      simp [herr]

/-- Witness for C1: appending the integer-typed object directly, and a
flat grid containing it, both raise with the type in the message and
leave the fresh buffer unchanged. -/
theorem append_unsupported_type_witness :
    HtmlBuffer.init.append (Obj.other "<class \x27int\x27>") Kwargs.empty =
      (.error ("unexpected object type " ++ "<class \x27int\x27>"), HtmlBuffer.init)
    ∧ ∃ e ∈ [Obj.str "a", Obj.other "<class \x27int\x27>"], is_unsupported e = true ∧
        HtmlBuffer.init.append (Obj.seq [Obj.str "a", Obj.other "<class \x27int\x27>"]) Kwargs.empty =
          (.error ("unexpected object type " ++ type_str_of e), HtmlBuffer.init) := by
  refine ⟨(append_unsupported_type HtmlBuffer.init Kwargs.empty "<class \x27int\x27>").1, ?_⟩
  refine (append_unsupported_type HtmlBuffer.init Kwargs.empty "<class \x27int\x27>").2.1
    [Obj.str "a", Obj.other "<class \x27int\x27>"]
    (List.mem_cons_of_mem _ (List.mem_singleton.mpr rfl)) ?_
  intro o h
  injection h with h
  subst h
  rfl

/-- C6: a flat (non-nested) sequence appended as a grid is treated as a
single row — one `<table>`, one `<tr>`, and one `<td>` per element, each
cell holding that element's independently rendered HTML. -/
theorem flat_grid_single_row (objs : List Obj) (k : Kwargs) (o0 : Obj) (hs : List String)
    (hhead : objs.head? = some o0) (hflat : is_seq o0 = false)
    (hok : single_htmls objs k = .ok hs) :
    obj_to_html (Obj.seq objs) k =
      .ok (join_pieces "\n"
        ("<table>" :: "<tr>" :: hs.map (fun h => "<td>" ++ h ++ "</td>")
          ++ ["</tr>", "</table>"])) := by
  cases objs with
  | nil => cases hhead
  | cons a rest =>
    injection hhead with hhead
    subst hhead
    have hcells := cells_html_of_single_htmls k (a :: rest) hs hok
    simp [obj_to_html, obj_grid_to_html, hflat, rows_pieces, row_pieces, iter_obj, hcells]

/-- Witness for C6: the flat sequence `["a", "b"]` renders as a single
row of two cells holding the markdown renderings of `"a"` and `"b"`. -/
theorem flat_grid_single_row_witness :
    obj_to_html (Obj.seq [Obj.str "a", Obj.str "b"]) Kwargs.empty =
      .ok ("<table>\n<tr>\n<td>" ++ markdown_markdown "a" ++ "</td>\n<td>"
        ++ markdown_markdown "b" ++ "</td>\n</tr>\n</table>") :=
  flat_grid_single_row [Obj.str "a", Obj.str "b"] Kwargs.empty (Obj.str "a")
    [markdown_markdown "a", markdown_markdown "b"] rfl rfl rfl

/-- C2: the process-wide active-board reference starts out null; the
first access through any module-level operation constructs the default
board — whose post-render callbacks are, in order, save-to-file,
open-in-browser, reset-buffer — and stores it; afterwards every
module-level operation acts on the stored board, until
`set_active_board` replaces it. -/
theorem active_board_wiring :
    init_module_state.active_board = none
    ∧ get_active_board init_module_state = (create_default_board, ⟨some create_default_board⟩)
    ∧ create_default_board.post_render_actions =
        [PostRenderAction.dump_rendered_to_html_file none,
         PostRenderAction.open_saved_buffer_in_browser,
         PostRenderAction.reset_buffer]
    ∧ (∀ s b, s.active_board = some b → get_active_board s = (b, s))
    ∧ (∀ s b, (set_active_board s b).active_board = some b)
    ∧ (∀ o k, pn_append init_module_state o k = pn_append ⟨some create_default_board⟩ o k)
    ∧ (∀ w, pn_render init_module_state w = pn_render ⟨some create_default_board⟩ w)
    ∧ pn_reset init_module_state = pn_reset ⟨some create_default_board⟩
    ∧ (∀ acts, pn_set_post_render_actions init_module_state acts
        = pn_set_post_render_actions ⟨some create_default_board⟩ acts)
    ∧ (∀ o k w, pn_render_obj init_module_state o k w
        = pn_render_obj ⟨some create_default_board⟩ o k w)
    ∧ (∀ s b o k, s.active_board = some b →
        (pn_append s o k).1 = (b.append o k).1
        ∧ (pn_append s o k).2 = ⟨some (b.append o k).2⟩)
    ∧ (∀ s b w, s.active_board = some b →
        pn_render s w = (⟨some (b.render w).1⟩, (b.render w).2))
    ∧ (∀ s b, s.active_board = some b → pn_reset s = ⟨some b.reset⟩)
    ∧ (∀ s b acts, s.active_board = some b →
        pn_set_post_render_actions s acts = ⟨some (b.set_post_render_actions acts)⟩) := by
  refine ⟨rfl, rfl, rfl, ?_, fun _ _ => rfl, fun _ _ => rfl, fun _ => rfl, rfl,
    fun _ => rfl, fun _ _ _ => rfl, ?_, ?_, ?_, ?_⟩
  · rintro ⟨sb⟩ b h
    cases h
    rfl
  · rintro ⟨sb⟩ b o k h
    cases h
    exact ⟨rfl, rfl⟩
  · rintro ⟨sb⟩ b w h
    cases h
    rfl
  · rintro ⟨sb⟩ b h
    cases h
    rfl
  · rintro ⟨sb⟩ b acts h
    cases h
    rfl

/-- Witness for C2: on a state holding the default board, the module
operations access and act on exactly that stored board. -/
theorem active_board_wiring_witness :
    get_active_board ⟨some create_default_board⟩ =
        (create_default_board, ⟨some create_default_board⟩)
    ∧ (pn_append ⟨some create_default_board⟩ (Obj.str "hi") Kwargs.empty).2 =
        ⟨some (create_default_board.append (Obj.str "hi") Kwargs.empty).2⟩
    ∧ pn_render ⟨some create_default_board⟩ ⟨none, false⟩ =
        (⟨some (create_default_board.render ⟨none, false⟩).1⟩,
          (create_default_board.render ⟨none, false⟩).2)
    ∧ pn_reset ⟨some create_default_board⟩ = ⟨some create_default_board.reset⟩ := by
  obtain ⟨_, _, _, h4, _, _, _, _, _, _, h11, h12, h13, _⟩ := active_board_wiring
  exact ⟨h4 ⟨some create_default_board⟩ create_default_board rfl,
    (h11 ⟨some create_default_board⟩ create_default_board (Obj.str "hi") Kwargs.empty rfl).2,
    h12 ⟨some create_default_board⟩ create_default_board ⟨none, false⟩ rfl,
    h13 ⟨some create_default_board⟩ create_default_board rfl⟩

lemma tod_nonneg (t : ℤ) : 0 ≤ time_of_day_ns t :=
  Int.emod_nonneg t (by norm_num [ns_per_day])

lemma allclose_iff (d : ℤ) (hd : 0 ≤ d) :
    (|total_seconds_q d| ≤ 1 / 100000000) ↔ d ≤ 10 := by
  unfold total_seconds_q
  rw [abs_of_nonneg (div_nonneg (by exact_mod_cast hd) (by norm_num))]
  rw [div_le_div_iff₀ (by norm_num) (by norm_num)]
  constructor
  · intro h
    have h10 : (d : ℚ) ≤ 10 := by linarith
    exact_mod_cast h10
  · intro h
    have h10 : (d : ℚ) ≤ 10 := by exact_mod_cast h
    linarith

/-- C4: each per-column display precision — median-absolute-deviation,
standard-deviation and mean candidates `⌊log10 v⌋ − 1`, back-filled
left-to-right over undefined/infinite values, defaulted to 0, negated
and clamped to `[0, 4]` — is a non-negative integer at most 4;
zero-row and zero-column inputs are handled without error (`0` and `[]`
respectively). -/
theorem display_precision_range (cols : List (List ℚ)) :
    (∀ p ∈ frame_display_precisions cols, 0 ≤ p ∧ p ≤ 4)
    ∧ (∀ xs : List ℚ, 0 ≤ display_precision xs ∧ display_precision xs ≤ 4)
    ∧ display_precision [] = 0
    ∧ frame_display_precisions [] = [] := by
  have hrange : ∀ xs : List ℚ, 0 ≤ display_precision xs ∧ display_precision xs ≤ 4 := by
    intro xs
    unfold display_precision
    exact ⟨le_min (le_max_right _ _) (by norm_num), min_le_right _ _⟩
  refine ⟨?_, hrange, by decide, rfl⟩
  intro p hp
  simp only [frame_display_precisions, List.mem_map] at hp
  obtain ⟨xs, _, rfl⟩ := hp
  exact hrange xs

/-- Witness for C4 at the spec's example column `[1, 2, 3]` (and its
frame). -/
theorem display_precision_range_witness :
    0 ≤ display_precision [1, 2, 3] ∧ display_precision [1, 2, 3] ≤ 4 :=
  (display_precision_range [[1, 2, 3]]).1 (display_precision [1, 2, 3])
    (List.mem_singleton.mpr rfl)

/-- C5: a datetime column is date-only formatted (`strftime("%Y-%m-%d")`,
no time component) exactly when every value's distance from its day
floor is numerically ~0 under `np.allclose` (at nanosecond resolution,
at most 10 ns); in particular every-value-midnight columns are date-only
formatted and columns with a value at least one second past midnight
keep the default (time-including) formatting. -/
theorem date_only_dt_formatting (col : List ℤ) :
    (is_date_only_dt_column col = true ↔ ∀ t ∈ col, time_of_day_ns t ≤ 10)
    ∧ ((∀ t ∈ col, time_of_day_ns t = 0) →
        format_dt_column col = col.map date_only_dt_formatter)
    ∧ ((∃ t ∈ col, 1000000000 ≤ time_of_day_ns t) →
        format_dt_column col = col.map default_dt_format) := by
  have hiff : is_date_only_dt_column col = true ↔ ∀ t ∈ col, time_of_day_ns t ≤ 10 := by
    unfold is_date_only_dt_column np_allclose_zero
    rw [List.all_eq_true]
    constructor
    · intro h t ht
      have hm := h _ (List.mem_map_of_mem _ ht)
      rw [decide_eq_true_eq] at hm
      exact (allclose_iff _ (tod_nonneg t)).mp hm
    · intro h s hs
      rw [decide_eq_true_eq]
      obtain ⟨t, ht, rfl⟩ := List.mem_map.mp hs
      exact (allclose_iff _ (tod_nonneg t)).mpr (h t ht)
  refine ⟨hiff, ?_, ?_⟩
  · intro h
    have ht : is_date_only_dt_column col = true :=
      hiff.mpr (fun t ht => by rw [h t ht]; norm_num)
    simp [format_dt_column, ht]
  · rintro ⟨t, ht, htod⟩
    have hne : ¬ is_date_only_dt_column col = true := by
      rw [hiff]
      push_neg
      exact ⟨t, ht, by omega⟩
    have hf : is_date_only_dt_column col = false := by simpa using hne
    simp [format_dt_column, hf]

/-- Witness for C5: the midnight-only column
`[2020-01-01T00:00:00, 2020-01-02T00:00:00]` formats as plain dates, and
the column `[2020-01-01T01:00:00]` keeps default (time-including)
formatting. -/
theorem date_only_dt_formatting_witness :
    format_dt_column [1577836800000000000, 1577923200000000000] =
      List.map date_only_dt_formatter [1577836800000000000, 1577923200000000000]
    ∧ format_dt_column [1577840400000000000] =
        List.map default_dt_format [1577840400000000000]
    ∧ List.map date_only_dt_formatter [1577836800000000000, 1577923200000000000] =
        ["2020-01-01", "2020-01-02"]
    ∧ List.map default_dt_format [1577840400000000000] = ["2020-01-01 01:00:00"] := by
  refine ⟨?_, ?_, by decide, by decide⟩
  · exact (date_only_dt_formatting _).2.1 (by decide)
  · exact (date_only_dt_formatting _).2.2
      ⟨1577840400000000000, List.mem_singleton.mpr rfl, by decide⟩

end Pynboard
